import Mathlib

/-!
# Verification of the Oumarbackend HTTP handlers

A shallow embedding of the two Express routers of this repository:

* `src/Projet/projet.js` — the project resource handler (create, get-by-id,
  partial update via `COALESCE`, delete, slug-uniqueness conflict mapping);
* `src/unnamed/part_000` — the contact resource handler (`validateContactData`,
  create, paginated list, replace, delete).

JavaScript runtime values are modelled by `JSValue`; the PostgreSQL gateway is
modelled as an in-memory list of rows, with the unique constraint on
`projects.slug` raising the error code `23505` exactly as the live database
does.  Handlers are written as pure functions from the request pieces (and the
current database state) to a response record that also carries the resulting
database state and the number of queries issued, so that claims about
"no query before the id check" or "storage unchanged" are directly statable.
-/

set_option maxHeartbeats 1600000

namespace Oumarbackend

/-- A JavaScript runtime value, as relevant to these handlers.  `undefined` is
`undefined` (e.g. a field absent from a request body); numbers are modelled as
integers, which covers every value the claims exercise. -/
inductive JSValue where
  | undefined : JSValue
  | null : JSValue
  | bool (b : Bool) : JSValue
  | num (n : Int) : JSValue
  | str (s : String) : JSValue
  | arr (elems : List JSValue) : JSValue
  | obj (fields : List (String × JSValue)) : JSValue
deriving Repr

mutual

/-- Structural equality on `JSValue` (used to model the database comparing two
stored `slug` column values for the unique constraint). -/
def JSValue.beq : JSValue → JSValue → Bool
  | .undefined, .undefined => true
  | .null, .null => true
  | .bool a, .bool b => a == b
  | .num a, .num b => a == b
  | .str a, .str b => a == b
  | .arr a, .arr b => JSValue.beqList a b
  | .obj a, .obj b => JSValue.beqFields a b
  | _, _ => false

/-- Elementwise equality of `JSValue` lists. -/
def JSValue.beqList : List JSValue → List JSValue → Bool
  | [], [] => true
  | a :: as', b :: bs' => JSValue.beq a b && JSValue.beqList as' bs'
  | _, _ => false

/-- Elementwise equality of `JSValue` field lists. -/
def JSValue.beqFields : List (String × JSValue) → List (String × JSValue) → Bool
  | [], [] => true
  | (k, v) :: as', (k', v') :: bs' =>
      k == k' && JSValue.beq v v' && JSValue.beqFields as' bs'
  | _, _ => false

end

/-- JavaScript truthiness: `undefined`, `null`, `false`, `0` and `""` are
falsy, everything else (including `[]` and `{}`) is truthy. -/
def JSValue.truthy : JSValue → Bool
  | .undefined => false
  | .null => false
  | .bool b => b
  | .num n => !(n == 0)
  | .str s => !(s == "")
  | .arr _ => true
  | .obj _ => true

/-- `typeof v === 'object'` restricted to truthy values: objects and arrays
(`null` is also `typeof 'object'` but is falsy, so the handlers' combined
`!body || typeof body !== 'object'` guard admits exactly these). -/
def JSValue.isObjectLike : JSValue → Bool
  | .obj _ => true
  | .arr _ => true
  | _ => false

/-- `Array.isArray`. -/
def JSValue.isArray : JSValue → Bool
  | .arr _ => true
  | _ => false

/-- `typeof v === 'string'`. -/
def JSValue.isString : JSValue → Bool
  | .str _ => true
  | _ => false

/-- `typeof v === 'boolean'`. -/
def JSValue.isBool : JSValue → Bool
  | .bool _ => true
  | _ => false

/-- Whether the value is exactly a JSON object (used to state the spec's
"stats coerced to an object or null"). -/
def JSValue.isObj : JSValue → Bool
  | .obj _ => true
  | _ => false

/-- Whether the value is SQL/JS `null`. -/
def JSValue.isNull : JSValue → Bool
  | .null => true
  | _ => false

/-- Looking up a named property: JSON object keys (last binding wins, as in
`JSON.parse`); on arrays and primitive values a named property reads as
`undefined`.  Only called where the JS code has established the base value is
not nullish. -/
def lookupField (fields : List (String × JSValue)) (k : String) : JSValue :=
  match fields.reverse.find? (fun p => p.1 == k) with
  | some p => p.2
  | none => .undefined

/-- Property access `v[k]` where a nullish base would throw; models the
destructuring / `data.name` accesses. -/
def JSValue.getField (v : JSValue) (k : String) : JSValue :=
  match v with
  | .obj fields => lookupField fields k
  | _ => .undefined

/-- A runtime exception.  The only one these handlers can raise themselves is
a `TypeError` (calling `.trim()` on a value that has no such method). -/
inductive JsErr where
  | typeError : JsErr
deriving Repr, DecidableEq

/-- The JavaScript `\s` character class (whitespace as used by
`String.prototype.trim` and the `\s` of the e-mail regular expression). -/
def jsWhitespace (c : Char) : Bool :=
  c = ' ' || c = '\t' || c = '\n' || c = '\r' || c = '\x0b' || c = '\x0c' ||
  c = '\u00A0' || c = '\u1680' || ('\u2000' ≤ c && c ≤ '\u200A') ||
  c = '\u2028' || c = '\u2029' || c = '\u202F' || c = '\u205F' ||
  c = '\u3000' || c = '\uFEFF'

/-- `String.prototype.trim`: drop JS whitespace from both ends. -/
def jsTrim (s : String) : String :=
  ⟨(((s.toList.dropWhile jsWhitespace).reverse.dropWhile jsWhitespace).reverse)⟩

/-- The character class `[^\s@]` of the e-mail regular expression. -/
def emailClassChar (c : Char) : Bool :=
  !(jsWhitespace c) && !(c == '@')

/-- Whether `t` matches `[^\s@]+\.[^\s@]+` exactly: all characters in the
class, with a literal `.` at some interior position. -/
def emailTail (t : List Char) : Bool :=
  t.all emailClassChar &&
    (List.range t.length).any (fun j =>
      decide (1 ≤ j) && decide (j + 1 < t.length) && (t.getD j ' ' == '.'))

/-- `/^[^\s@]+@[^\s@]+\.[^\s@]+$/.test s` — the contact e-mail pattern:
some split position `i` carries the `@`, a non-empty class-only part stands
before it, and the remainder matches `[^\s@]+\.[^\s@]+`. -/
def emailRegexTest (s : String) : Bool :=
  let cs := s.toList
  (List.range cs.length).any (fun i =>
    (cs.getD i ' ' == '@') && decide (1 ≤ i) &&
    (cs.take i).all emailClassChar && emailTail (cs.drop (i + 1)))

/-- `/^[a-z0-9-]+$/.test s` — the project slug pattern. -/
def slugRegexTest (s : String) : Bool :=
  !s.toList.isEmpty &&
    s.toList.all (fun c => ('a' ≤ c && c ≤ 'z') || c.isDigit || c == '-')

/-- Value of a list of decimal digit characters. -/
def digitsToNat (ds : List Char) : Nat :=
  ds.foldl (fun acc c => acc * 10 + (c.toNat - '0'.toNat)) 0

/-- Value of a list of hexadecimal digit characters. -/
def hexDigitsToNat (ds : List Char) : Nat :=
  ds.foldl (fun acc c =>
    acc * 16 +
      (if c.isDigit then c.toNat - '0'.toNat
       else if 'a' ≤ c && c ≤ 'f' then c.toNat - 'a'.toNat + 10
       else c.toNat - 'A'.toNat + 10)) 0

/-- Hexadecimal digit test. -/
def isHexDigit (c : Char) : Bool :=
  c.isDigit || ('a' ≤ c && c ≤ 'f') || ('A' ≤ c && c ≤ 'F')

/-- JavaScript `parseInt(s)` (radix unspecified): skip leading whitespace,
read an optional sign, honour a `0x`/`0X` prefix, then consume leading
(hex) digits, ignoring any trailing garbage; `none` models `NaN`. -/
def jsParseInt (s : String) : Option Int :=
  let cs := s.toList.dropWhile jsWhitespace
  let (sign, rest) : Int × List Char :=
    match cs with
    | '-' :: t => (-1, t)
    | '+' :: t => (1, t)
    | _ => (1, cs)
  match rest with
  | '0' :: x :: t =>
      if x = 'x' || x = 'X' then
        let ds := t.takeWhile isHexDigit
        if ds.isEmpty then none else some (sign * hexDigitsToNat ds)
      else
        let ds := rest.takeWhile Char.isDigit
        some (sign * digitsToNat ds)
  | _ =>
      let ds := rest.takeWhile Char.isDigit
      if ds.isEmpty then none else some (sign * digitsToNat ds)

/-- PostgreSQL's parse of a text literal bound to an `integer` column
(`WHERE id = $1` with a string parameter): optional surrounding spaces,
optional sign, then digits only; anything else raises
`invalid input syntax for type integer`, modelled as `none`. -/
def pgParseInt (s : String) : Option Int :=
  let cs := (s.toList.dropWhile (· == ' ')).reverse.dropWhile (· == ' ') |>.reverse
  let (sign, rest) : Int × List Char :=
    match cs with
    | '-' :: t => (-1, t)
    | '+' :: t => (1, t)
    | _ => (1, cs)
  if rest.isEmpty then none
  else if rest.all Char.isDigit then some (sign * digitsToNat rest)
  else none

/-! ## The contact router (`src/unnamed/part_000`) -/

/-- The error list `if (!s.trim()) [msg] else []` produced by a required-field
check on a string value. -/
def requiredStrErrors (msg : String) (s : String) : List String :=
  if jsTrim s = "" then [msg] else []

/-- The error list of the e-mail check on a string value: required when blank
after trimming, otherwise invalid unless the pattern matches the *untrimmed*
string. -/
def emailStrErrors (s : String) : List String :=
  if jsTrim s = "" then ["Email est requis"]
  else if emailRegexTest s then [] else ["Email invalide"]

/-- Models `if (!v?.trim()) errors.push(msg)` on a field value `v`:
nullish values short-circuit `?.` to `undefined` (falsy, so the message is
pushed); a string is trimmed and the message is pushed when the result is the
empty string; any other value has no `trim` method, so the call throws a
`TypeError`. -/
def requiredCheck (msg : String) (v : JSValue) : Except JsErr (List String) :=
  match v with
  | .undefined => .ok [msg]
  | .null => .ok [msg]
  | .str s => .ok (requiredStrErrors msg s)
  | _ => .error .typeError

/-- Models lines 17–18 of the contact router: `if (!data.email?.trim())
errors.push('Email est requis'); else if (!regex.test(data.email))
errors.push('Email invalide')`. -/
def emailCheck (v : JSValue) : Except JsErr (List String) :=
  match v with
  | .undefined => .ok ["Email est requis"]
  | .null => .ok ["Email est requis"]
  | .str s => .ok (emailStrErrors s)
  | _ => .error .typeError

/-- Field values on which `validateContactData` completes without throwing:
absent (`undefined`), `null`, or a string.  Any other present value throws a
`TypeError` on `.trim()`. -/
def isNullishOrString (v : JSValue) : Bool :=
  match v with
  | .undefined => true
  | .null => true
  | .str _ => true
  | _ => false

/-- The name/message-required errors as a pure function of the field value,
on the non-throwing domain (`isNullishOrString`). -/
def requiredErrorsOf (msg : String) (v : JSValue) : List String :=
  match v with
  | .str s => requiredStrErrors msg s
  | _ => [msg]

/-- The e-mail errors as a pure function of the field value, on the
non-throwing domain (`isNullishOrString`). -/
def emailErrorsOf (v : JSValue) : List String :=
  match v with
  | .str s => emailStrErrors s
  | _ => ["Email est requis"]

/-- Property read `data.k` as it occurs inside `validateContactData`: a
nullish `data` throws a `TypeError`, any other non-object base yields
`undefined`. -/
def getFieldE (data : JSValue) (k : String) : Except JsErr JSValue :=
  match data with
  | .undefined => .error .typeError
  | .null => .error .typeError
  | v => .ok (v.getField k)

/-- `validateContactData` (contact router, lines 12–22): collects the
name-required, email-required/format and message-required violations in
order into one array.  An exception raised while checking a field propagates
(the source performs the three checks sequentially). -/
def validateContactData (data : JSValue) : Except JsErr (List String) := do
  let nameErrs ← requiredCheck "Le nom est requis" (← getFieldE data "name")
  let emailErrs ← emailCheck (← getFieldE data "email")
  let msgErrs ← requiredCheck "Le message est requis" (← getFieldE data "message")
  .ok (nameErrs ++ emailErrs ++ msgErrs)

/-- A row of the `contact` table.  The inserted column values are the raw
request-body values (the source binds them unchanged as query parameters). -/
structure ContactRow where
  id : Int
  name : JSValue
  email : JSValue
  message : JSValue
  createdAt : Nat
deriving Repr

/-- Response-plus-effects of a contact create/replace/delete handler:
HTTP status, `success` flag, validation `errors`, optional `message`, the
returned record if any, the database state after the request, and how many
SQL statements were issued. -/
structure ContactOut where
  status : Nat
  success : Bool
  errors : List String := []
  message : Option String := none
  data : Option ContactRow := none
  db : List ContactRow
  queries : Nat
deriving Repr

/-- Outcome of a contact handler whose validation call sits *outside* the
`try` block: either an HTTP response was produced, or the exception escaped
the handler (no response, no query). -/
inductive ContactResult where
  | response (out : ContactOut) : ContactResult
  | threw (e : JsErr) : ContactResult
deriving Repr

/-- `POST /` of the contact router (lines 27–50): validate (outside `try`;
a thrown `TypeError` escapes), return 400 with the collected errors when any,
otherwise insert the raw `name`/`email`/`message` values as a new row (fresh
id and timestamp come from the database) and answer 201 with the record. -/
def contactPost (db : List ContactRow) (body : JSValue) (freshId : Int)
    (now : Nat) : ContactResult :=
  match validateContactData body with
  | .error e => .threw e
  | .ok errs =>
    if errs.isEmpty then
      let row : ContactRow :=
        { id := freshId, name := body.getField "name",
          email := body.getField "email", message := body.getField "message",
          createdAt := now }
      .response { status := 201, success := true, data := some row,
                  db := db ++ [row], queries := 1 }
    else
      .response { status := 400, success := false, errors := errs,
                  db := db, queries := 0 }

/-- `PUT /:id` of the contact router (lines 134–160): validate the full
payload (outside `try`), then `UPDATE ... WHERE id = $4 RETURNING *` with the
raw id string bound to the integer column — an unparseable id makes PostgreSQL
throw, which the `catch` turns into a 500; zero updated rows yield 404;
otherwise all three columns are overwritten and the row returned. -/
def contactPut (db : List ContactRow) (idParam : String) (body : JSValue) :
    ContactResult :=
  match validateContactData body with
  | .error e => .threw e
  | .ok errs =>
    if errs.isEmpty then
      match pgParseInt idParam with
      | none =>
          .response { status := 500, success := false,
                      message := some "Erreur serveur", db := db, queries := 1 }
      | some n =>
        match db.find? (fun r => r.id == n) with
        | none =>
            .response { status := 404, success := false,
                        message := some "Contact non trouvé", db := db,
                        queries := 1 }
        | some old =>
          let newRow : ContactRow :=
            { old with name := body.getField "name",
                       email := body.getField "email",
                       message := body.getField "message" }
          .response { status := 200, success := true, data := some newRow,
                      db := db.map (fun r => if r.id == n then
                        { r with name := body.getField "name",
                                 email := body.getField "email",
                                 message := body.getField "message" } else r),
                      queries := 1 }
    else
      .response { status := 400, success := false, errors := errs,
                  db := db, queries := 0 }

/-- Case-insensitive substring match: `col ILIKE '%search%'`. -/
def ilikeContains (search : String) (v : JSValue) : Bool :=
  match v with
  | .str s => decide (List.IsInfix (search.toLower.toList) (s.toLower.toList))
  | _ => false

/-- The contact-list `WHERE` filter: `name ILIKE $1 OR email ILIKE $1 OR
message ILIKE $1` with `$1 = '%search%'`. -/
def contactMatches (search : String) (r : ContactRow) : Bool :=
  ilikeContains search r.name || ilikeContains search r.email ||
    ilikeContains search r.message

/-- Insert a row into a list kept sorted by `created_at` descending. -/
def insertByCreatedDesc (r : ContactRow) : List ContactRow → List ContactRow
  | [] => [r]
  | x :: xs =>
      if x.createdAt ≤ r.createdAt then r :: x :: xs
      else x :: insertByCreatedDesc r xs

/-- `ORDER BY created_at DESC` (the default `sort` parameter
`'created_at-desc'`; the claims under verification do not exercise other sort
values, so the handler below is modelled at that default). -/
def sortByCreatedDesc : List ContactRow → List ContactRow
  | [] => []
  | x :: xs => insertByCreatedDesc x (sortByCreatedDesc xs)

/-- The `pagination` object of the contact-list response. -/
structure Pagination where
  total : Nat
  totalPages : Nat
  currentPage : Nat
  itemsPerPage : Nat
deriving Repr, DecidableEq

/-- Response-plus-effects of the contact list handler; `offsetUsed` and
`limitUsed` record the values bound to `OFFSET`/`LIMIT` in the data query. -/
structure ContactListOut where
  status : Nat
  success : Bool
  data : List ContactRow := []
  pagination : Option Pagination := none
  offsetUsed : Nat := 0
  limitUsed : Nat := 0
  queries : Nat
deriving Repr

/-- The `WHERE` clause of the contact-list queries: no filter when `search`
is absent or the empty string (both falsy in `if (search)`), otherwise the
global `ILIKE` match on name, email and message. -/
def contactFiltered (db : List ContactRow) (search : Option String) :
    List ContactRow :=
  match search with
  | some s => if s = "" then db else db.filter (contactMatches s)
  | none => db

/-- `GET /` of the contact router (lines 55–105): defaults `page = 1`,
`limit = 10`; `offset = (page − 1) × limit`; optional global `ILIKE` filter
(skipped when `search` is absent or empty, both falsy); `ORDER BY created_at
DESC`; data query with `LIMIT limit OFFSET offset` and a `COUNT(*)` query over
the same filter, issued together; `totalPages = Math.ceil(total / limit)`
(for the positive limits the claims range over, the natural ceiling
division `(total + limit − 1) / limit`).  Numeric query-string parameters are
modelled by their numeric values (`page = 0` or `limit = 0` lead the live code
to a negative `OFFSET` error resp. a non-finite page count and are outside the
claims, which assume positive values). -/
def contactList (db : List ContactRow) (search : Option String)
    (page limit : Option Nat) : ContactListOut :=
  let p := page.getD 1
  let l := limit.getD 10
  let offset := (p - 1) * l
  let filtered := contactFiltered db search
  let rows := ((sortByCreatedDesc filtered).drop offset).take l
  let total := filtered.length
  { status := 200, success := true, data := rows,
    pagination := some { total := total, totalPages := (total + l - 1) / l,
                         currentPage := p, itemsPerPage := l },
    offsetUsed := offset, limitUsed := l, queries := 2 }

/-! ## The project router (`src/Projet/projet.js`) -/

/-- One string-field validation block of `POST /projects` (lines 40–51):
`if (!v) push(requiredMsg); else if (typeof v !== 'string') push(typeMsg);
else if (v.trim() === '') push(emptyMsg);` followed by an optional extra
check on the string (the slug pattern). -/
def createFieldErrors (requiredMsg typeMsg emptyMsg : String)
    (extra : String → List String) (v : JSValue) : List String :=
  if v.truthy then
    match v with
    | .str s => if jsTrim s = "" then [emptyMsg] else extra s
    | _ => [typeMsg]
  else [requiredMsg]

/-- The slug-pattern check shared by create and update validation
(`!/^[a-z0-9-]+$/.test(slug)`). -/
def slugPatternErrors (s : String) : List String :=
  if slugRegexTest s then []
  else ["Le slug ne peut contenir que des lettres minuscules, chiffres et tirets"]

/-- The full validation block of `POST /projects` on the destructured
`title`, `description` and `slug` (pushes collect in source order). -/
def projectCreateErrors (title description slug : JSValue) : List String :=
  createFieldErrors "Le titre est obligatoire"
      "Le titre doit être une chaîne de caractères"
      "Le titre ne peut pas être vide" (fun _ => []) title ++
  createFieldErrors "La description est obligatoire"
      "La description doit être une chaîne de caractères"
      "La description ne peut pas être vide" (fun _ => []) description ++
  createFieldErrors "Le slug est obligatoire"
      "Le slug doit être une chaîne de caractères"
      "Le slug ne peut pas être vide" slugPatternErrors slug

/-- One string-field validation block of `PUT /projects/:id` (lines 181–195):
the field is checked only when it is not `undefined`; a present non-string
(including `null`) gets the type message, a present blank string the empty
message, then the optional extra check. -/
def putFieldErrors (typeMsg emptyMsg : String) (extra : String → List String)
    (v : JSValue) : List String :=
  match v with
  | .undefined => []
  | .str s => if jsTrim s = "" then [emptyMsg] else extra s
  | _ => [typeMsg]

/-- The full validation block of `PUT /projects/:id` on the destructured
`title`, `description` and `slug`. -/
def projectPutErrors (title description slug : JSValue) : List String :=
  putFieldErrors "Le titre doit être une chaîne de caractères"
      "Le titre ne peut pas être vide" (fun _ => []) title ++
  putFieldErrors "La description doit être une chaîne de caractères"
      "La description ne peut pas être vide" (fun _ => []) description ++
  putFieldErrors "Le slug doit être une chaîne de caractères"
      "Le slug ne peut pas être vide" slugPatternErrors slug

/-- A row of the `projects` table.  Column values are kept as the JS values
the handlers bind as query parameters (for every request the claims range
over these are strings, string arrays, booleans, objects, or SQL `NULL`). -/
structure ProjectRow where
  id : Int
  title : JSValue
  description : JSValue
  image : JSValue
  technologies : JSValue
  featured : JSValue
  stats : JSValue
  slug : JSValue
  createdAt : Nat
  updatedAt : Nat
deriving Repr

/-- Response-plus-effects of a project handler: HTTP status, `success` flag,
optional `message`, validation `errors`, the returned record if any, the
`deletedId` echo of the delete route, the database state after the request,
and how many SQL statements were issued. -/
structure ProjOut where
  status : Nat
  success : Bool
  message : Option String := none
  errors : List String := []
  data : Option ProjectRow := none
  deletedId : Option String := none
  db : List ProjectRow
  queries : Nat
deriving Repr

/-- The id guard shared by `GET/PUT/DELETE /projects/:id`:
`if (!id || isNaN(parseInt(id))) return 400`. -/
def badIdParam (idParam : String) : Bool :=
  idParam == "" || (jsParseInt idParam).isNone

/-- The body guard of `POST` and `PUT`:
`if (!req.body || typeof req.body !== 'object') return 400`. -/
def badBody (body : JSValue) : Bool :=
  !(body.truthy && body.isObjectLike)

/-- `v ? v.trim() : null` — the parameter computation for `title`,
`description` and `slug` in the update statement; on a truthy value without a
`trim` method the call throws a `TypeError` (caught by the route's `catch`,
whose `error.code` is not `'23505'`, so it forwards to the 500 handler). -/
def trimOrNull (v : JSValue) : Except JsErr JSValue :=
  if v.truthy then
    match v with
    | .str s => .ok (.str (jsTrim s))
    | _ => .error .typeError
  else .ok .null

/-- `COALESCE(param, column)` of the update statement: a SQL `NULL` parameter
keeps the stored column value. -/
def coalesceJs (param old : JSValue) : JSValue :=
  match param with
  | .null => old
  | v => v

/-- `POST /projects` (lines 27–90): require a truthy JSON-object body;
validate `title`/`description`/`slug`; on any error answer 400 with the
collected list and issue no query.  Otherwise bind the trimmed strings, the
`image || null`, `Array.isArray(technologies) ? technologies : null`,
`typeof featured === 'boolean' ? featured : false`, `stats || null` values
and insert; the unique constraint on `slug` (PostgreSQL error `23505`) is
answered with 409 and leaves the table unchanged; on success the created row
is returned with 201. -/
def projectPost (db : List ProjectRow) (body : JSValue) (freshId : Int)
    (now : Nat) : ProjOut :=
  if badBody body then
    { status := 400, success := false,
      message := some "Le corps de la requête doit être un objet JSON",
      db := db, queries := 0 }
  else
    let title := body.getField "title"
    let description := body.getField "description"
    let slug := body.getField "slug"
    let errors := projectCreateErrors title description slug
    if errors.isEmpty then
      match title, description, slug with
      | .str t, .str d, .str s =>
        let vImage := if (body.getField "image").truthy
                      then body.getField "image" else .null
        let vTech := if (body.getField "technologies").isArray
                     then body.getField "technologies" else .null
        let vFeatured := if (body.getField "featured").isBool
                         then body.getField "featured" else .bool false
        let vStats := if (body.getField "stats").truthy
                      then body.getField "stats" else .null
        let vSlug : JSValue := .str (jsTrim s)
        if db.any (fun r => r.slug.beq vSlug) then
          { status := 409, success := false,
            message := some "Un projet avec ce slug existe déjà",
            db := db, queries := 1 }
        else
          let row : ProjectRow :=
            { id := freshId, title := .str (jsTrim t),
              description := .str (jsTrim d), image := vImage,
              technologies := vTech, featured := vFeatured, stats := vStats,
              slug := vSlug, createdAt := now, updatedAt := now }
          { status := 201, success := true, data := some row,
            db := db ++ [row], queries := 1 }
      | _, _, _ =>
          -- unreachable once validation passed: a non-string here would have
          -- thrown on `.trim()` inside `try` and been forwarded as a 500
          { status := 500, success := false, db := db, queries := 0 }
    else
      { status := 400, success := false, message := some "Erreurs de validation",
        errors := errors, db := db, queries := 0 }

/-- `GET /projects/:id` (lines 116–144): reject a non-parsing id with 400
before any query; then `SELECT * WHERE id = $1` with the raw id string — a
string PostgreSQL cannot cast throws (500 via `next(error)`), an empty result
set yields 404, otherwise the row is returned. -/
def projectGetById (db : List ProjectRow) (idParam : String) : ProjOut :=
  if badIdParam idParam then
    { status := 400, success := false,
      message := some "ID doit être un nombre valide", db := db, queries := 0 }
  else
    match pgParseInt idParam with
    | none => { status := 500, success := false, db := db, queries := 1 }
    | some n =>
      match db.find? (fun r => r.id == n) with
      | none =>
          { status := 404, success := false,
            message := some "Projet non trouvé", db := db, queries := 1 }
      | some r =>
          { status := 200, success := true, data := some r, db := db,
            queries := 1 }

/-- The updated version of row `r`: each column falls back to its stored
value when the bound parameter is SQL `NULL` (`COALESCE($i, column)`), and
`updated_at = NOW()` unconditionally. -/
def applyProjectUpdate (r : ProjectRow)
    (vTitle vDesc vImage vTech vFeatured vStats vSlug : JSValue) (now : Nat) :
    ProjectRow :=
  { r with
    title := coalesceJs vTitle r.title,
    description := coalesceJs vDesc r.description,
    image := coalesceJs vImage r.image,
    technologies := coalesceJs vTech r.technologies,
    featured := coalesceJs vFeatured r.featured,
    stats := coalesceJs vStats r.stats,
    slug := coalesceJs vSlug r.slug,
    updatedAt := now }

/-- `PUT /projects/:id` (lines 159–256): id guard, body guard, present-field
validation — each answering 400 with no query issued — then the existence
check `SELECT id WHERE id = $1` (404 when no row matches; an uncastable id
string throws → 500), then the `COALESCE` update with parameters
`title ? title.trim() : null`, `description ? description.trim() : null`,
`image || null`, `Array.isArray(technologies) ? technologies : null`,
`typeof featured === 'boolean' ? featured : null`, `stats || null`,
`slug ? slug.trim() : null`.  A resulting duplicate slug raises `23505`,
answered with 409 and leaving the table unchanged; otherwise the updated row
is returned with 200. -/
def projectPut (db : List ProjectRow) (idParam : String) (body : JSValue)
    (now : Nat) : ProjOut :=
  if badIdParam idParam then
    { status := 400, success := false,
      message := some "ID doit être un nombre valide", db := db, queries := 0 }
  else if badBody body then
    { status := 400, success := false,
      message := some "Le corps de la requête doit être un objet JSON",
      db := db, queries := 0 }
  else
    let title := body.getField "title"
    let description := body.getField "description"
    let slug := body.getField "slug"
    let errors := projectPutErrors title description slug
    if errors.isEmpty then
      match pgParseInt idParam with
      | none => { status := 500, success := false, db := db, queries := 1 }
      | some n =>
        match db.find? (fun r => r.id == n) with
        | none =>
            { status := 404, success := false,
              message := some "Projet non trouvé", db := db, queries := 1 }
        | some old =>
          match trimOrNull title, trimOrNull description, trimOrNull slug with
          | .ok vTitle, .ok vDesc, .ok vSlug =>
            let vImage := if (body.getField "image").truthy
                          then body.getField "image" else .null
            let vTech := if (body.getField "technologies").isArray
                         then body.getField "technologies" else .null
            let vFeatured := if (body.getField "featured").isBool
                             then body.getField "featured" else .null
            let vStats := if (body.getField "stats").truthy
                          then body.getField "stats" else .null
            let newRow := applyProjectUpdate old vTitle vDesc vImage vTech
                            vFeatured vStats vSlug now
            if db.any (fun r => !(r.id == n) && r.slug.beq newRow.slug) then
              { status := 409, success := false,
                message := some "Un projet avec ce slug existe déjà",
                db := db, queries := 2 }
            else
              { status := 200, success := true, data := some newRow,
                db := db.map (fun r => if r.id == n then
                  applyProjectUpdate r vTitle vDesc vImage vTech vFeatured
                    vStats vSlug now else r),
                queries := 2 }
          | _, _, _ =>
              -- a `TypeError` inside `try`, forwarded by `catch` as a 500
              { status := 500, success := false, db := db, queries := 1 }
    else
      { status := 400, success := false, message := some "Erreurs de validation",
        errors := errors, db := db, queries := 0 }

/-- The value of `v ? v.trim() : null` on field values that pass the PUT
validation (absent, or a string): total counterpart of `trimOrNull` on the
non-throwing domain. -/
def putParamOfField (v : JSValue) : JSValue :=
  match v with
  | .str s => if s = "" then .null else .str (jsTrim s)
  | _ => .null

/-- The effective column value a `PUT /projects/:id` update writes for a
validated string field (`title`, `description`, `slug`):
`COALESCE(field ? field.trim() : null, stored)` as a function of the request
field and the stored value. -/
def putCoalesced (field oldVal : JSValue) : JSValue :=
  match field with
  | .str s => if s = "" then oldVal else .str (jsTrim s)
  | _ => oldVal

/-- The row a `PUT /projects/:id` request with a validated body writes over
the stored row `r`: each column is the `COALESCE` of its computed parameter
with the stored value, and `updated_at` is set to the current time. -/
def putUpdatedRow (body : JSValue) (now : Nat) (r : ProjectRow) : ProjectRow :=
  { id := r.id,
    title := putCoalesced (body.getField "title") r.title,
    description := putCoalesced (body.getField "description") r.description,
    image := coalesceJs (if (body.getField "image").truthy
               then body.getField "image" else .null) r.image,
    technologies := coalesceJs (if (body.getField "technologies").isArray
               then body.getField "technologies" else .null) r.technologies,
    featured := coalesceJs (if (body.getField "featured").isBool
               then body.getField "featured" else .null) r.featured,
    stats := coalesceJs (if (body.getField "stats").truthy
               then body.getField "stats" else .null) r.stats,
    slug := putCoalesced (body.getField "slug") r.slug,
    createdAt := r.createdAt, updatedAt := now }

/-- `DELETE /projects/:id` (lines 264–298): id guard (400, no query), then
the existence check (uncastable id → 500; absent → 404), then the delete,
answering 200 with the raw id echoed as `deletedId`. -/
def projectDelete (db : List ProjectRow) (idParam : String) : ProjOut :=
  if badIdParam idParam then
    { status := 400, success := false,
      message := some "ID doit être un nombre valide", db := db, queries := 0 }
  else
    match pgParseInt idParam with
    | none => { status := 500, success := false, db := db, queries := 1 }
    | some n =>
      match db.find? (fun r => r.id == n) with
      | none =>
          { status := 404, success := false,
            message := some "Projet non trouvé", db := db, queries := 1 }
      | some _ =>
          { status := 200, success := true,
            message := some "Projet supprimé avec succès",
            deletedId := some idParam,
            db := db.filter (fun r => !(r.id == n)), queries := 2 }

/-! ## Shared lemmas -/

/-- `bind` on a successful `Except` computation applies the continuation. -/
theorem exBindOk {α β ε : Type} (a : α) (f : α → Except ε β) :
    ((Except.ok a : Except ε α) >>= f) = f a := rfl

/-- `dropWhile` leaves a list unchanged when no element satisfies the
predicate. -/
theorem dropWhile_eq_self_of_none {p : Char → Bool} :
    ∀ l : List Char, (∀ c ∈ l, p c = false) → l.dropWhile p = l
  | [], _ => rfl
  | a :: l, h => by
      have ha := h a (by simp)
      simp [List.dropWhile_cons, ha]

/-- Characters of the e-mail class `[^\s@]` are not JS whitespace. -/
theorem emailClassChar_no_ws {c : Char} (h : emailClassChar c = true) :
    jsWhitespace c = false := by
  unfold emailClassChar at h
  rw [Bool.and_eq_true] at h
  obtain ⟨h1, _⟩ := h
  simpa using h1

/-- A string accepted by the e-mail pattern contains no JS whitespace and is
non-empty. -/
theorem emailRegexTest_chars {s : String} (h : emailRegexTest s = true) :
    (∀ c ∈ s.toList, jsWhitespace c = false) ∧ s.toList ≠ [] := by
  unfold emailRegexTest at h
  obtain ⟨i, hi, hcond⟩ := List.any_eq_true.mp h
  rw [List.mem_range] at hi
  rw [Bool.and_eq_true, Bool.and_eq_true, Bool.and_eq_true] at hcond
  obtain ⟨⟨⟨hat, _⟩, htake⟩, htail⟩ := hcond
  unfold emailTail at htail
  rw [Bool.and_eq_true] at htail
  obtain ⟨htailall, _⟩ := htail
  constructor
  · intro c hc
    rw [← List.take_append_drop i s.toList] at hc
    rcases List.mem_append.mp hc with hcl | hcr
    · exact emailClassChar_no_ws (List.all_eq_true.mp htake c hcl)
    · rw [List.drop_eq_getElem_cons hi] at hcr
      rcases List.mem_cons.mp hcr with hceq | hcd
      · have hat' : s.toList.getD i ' ' = '@' := by
          exact eq_of_beq hat
        rw [List.getD_eq_getElem?_getD, List.getElem?_eq_getElem hi] at hat'
        simp only [Option.getD_some] at hat'
        rw [hceq, hat']
        decide
      · exact emailClassChar_no_ws (List.all_eq_true.mp htailall c hcd)
  · intro hnil
    rw [hnil] at hi
    simp at hi

/-- A string without JS whitespace is unchanged by `jsTrim`. -/
theorem jsTrim_eq_self {s : String}
    (h : ∀ c ∈ s.toList, jsWhitespace c = false) : jsTrim s = s := by
  have h1 : s.toList.dropWhile jsWhitespace = s.toList :=
    dropWhile_eq_self_of_none _ h
  have h2 : s.toList.reverse.dropWhile jsWhitespace = s.toList.reverse :=
    dropWhile_eq_self_of_none _ (fun c hc => h c (List.mem_reverse.mp hc))
  unfold jsTrim
  rw [h1, h2, List.reverse_reverse]
  cases s
  rfl

/-- A string accepted by the e-mail pattern is unchanged by `jsTrim`. -/
theorem emailRegexTest_trim {s : String} (h : emailRegexTest s = true) :
    jsTrim s = s :=
  jsTrim_eq_self (emailRegexTest_chars h).1

/-- A string accepted by the e-mail pattern is not empty. -/
theorem emailRegexTest_ne_empty {s : String} (h : emailRegexTest s = true) :
    s ≠ "" := by
  intro heq
  exact (emailRegexTest_chars h).2 (by rw [heq]; rfl)

/-- A string accepted by the e-mail pattern does not trim to empty. -/
theorem emailRegexTest_trim_ne_empty {s : String}
    (h : emailRegexTest s = true) : jsTrim s ≠ "" := by
  rw [emailRegexTest_trim h]
  exact emailRegexTest_ne_empty h

/-- The e-mail check of `validateContactData` passes a string exactly when the
pattern accepts it. -/
theorem emailStrErrors_nil_iff (s : String) :
    emailStrErrors s = [] ↔ emailRegexTest s = true := by
  unfold emailStrErrors
  constructor
  · intro h
    by_cases h1 : jsTrim s = ""
    · rw [if_pos h1] at h
      exact absurd h (by simp)
    · rw [if_neg h1] at h
      by_cases h2 : emailRegexTest s = true
      · exact h2
      · rw [if_neg h2] at h
        exact absurd h (by simp)
  · intro ht
    rw [if_neg (emailRegexTest_trim_ne_empty ht), if_pos ht]

/-- `requiredCheck` never throws on the nullish-or-string domain and computes
the pure per-field error list. -/
theorem requiredCheck_ok (msg : String) {v : JSValue}
    (h : isNullishOrString v = true) :
    requiredCheck msg v = .ok (requiredErrorsOf msg v) := by
  cases v <;> simp_all [isNullishOrString, requiredCheck, requiredErrorsOf]

/-- `emailCheck` never throws on the nullish-or-string domain and computes
the pure per-field error list. -/
theorem emailCheck_ok {v : JSValue} (h : isNullishOrString v = true) :
    emailCheck v = .ok (emailErrorsOf v) := by
  cases v <;> simp_all [isNullishOrString, emailCheck, emailErrorsOf]

/-! ## Claims -/

/-- **C3.** Contact validation checks `name`, `email` and `message`
independently (each contributing its own error list, concatenated in order,
with no short-circuiting), a payload missing all three fields yields exactly
the three error strings, and an empty error list makes the create handler
proceed to the insert (acceptance). -/
theorem contact_validation_collects_all :
    (∀ (data v1 v2 v3 : JSValue),
        getFieldE data "name" = .ok v1 → isNullishOrString v1 = true →
        getFieldE data "email" = .ok v2 → isNullishOrString v2 = true →
        getFieldE data "message" = .ok v3 → isNullishOrString v3 = true →
        validateContactData data =
          .ok (requiredErrorsOf "Le nom est requis" v1 ++ emailErrorsOf v2 ++
               requiredErrorsOf "Le message est requis" v3)) ∧
    validateContactData (.obj []) =
      .ok ["Le nom est requis", "Email est requis", "Le message est requis"] ∧
    (∀ (db : List ContactRow) (body : JSValue) (freshId : Int) (now : Nat),
        validateContactData body = .ok [] →
        contactPost db body freshId now = .response
          { status := 201, success := true,
            data := some { id := freshId, name := body.getField "name",
                           email := body.getField "email",
                           message := body.getField "message",
                           createdAt := now },
            db := db ++ [{ id := freshId, name := body.getField "name",
                           email := body.getField "email",
                           message := body.getField "message",
                           createdAt := now }],
            queries := 1 }) := by
  refine ⟨?_, rfl, ?_⟩
  · intro data v1 v2 v3 h1 n1 h2 n2 h3 n3
    unfold validateContactData
    rw [h1, exBindOk, requiredCheck_ok _ n1, exBindOk, h2, exBindOk,
        emailCheck_ok n2, exBindOk, h3, exBindOk, requiredCheck_ok _ n3,
        exBindOk]
  · intro db body freshId now h
    unfold contactPost
    rw [h]
    rfl

/-- Witness for C3: a payload with `name: null`, a valid e-mail and no
`message` collects exactly the name and message errors; a fully valid payload
is accepted and inserted. -/
theorem contact_validation_collects_all_witness :
    validateContactData (.obj [("name", .null), ("email", .str "a@b.co"),
        ("message", .undefined)]) =
      .ok (requiredErrorsOf "Le nom est requis" .null ++
           emailErrorsOf (.str "a@b.co") ++
           requiredErrorsOf "Le message est requis" .undefined) ∧
    contactPost [] (.obj [("name", .str "N"), ("email", .str "a@b.co"),
        ("message", .str "M")]) 1 2 = .response
      { status := 201, success := true,
        data := some { id := 1, name := .str "N", email := .str "a@b.co",
                       message := .str "M", createdAt := 2 },
        db := [{ id := 1, name := .str "N", email := .str "a@b.co",
                 message := .str "M", createdAt := 2 }],
        queries := 1 } := by
  constructor
  · exact contact_validation_collects_all.1 _ _ _ _ rfl rfl rfl rfl rfl rfl
  · exact contact_validation_collects_all.2.2 [] _ 1 2 rfl

/-- **C8.** With the other two fields valid, contact validation accepts the
payload exactly when the e-mail matches `[^\s@]+@[^\s@]+\.[^\s@]+`; in
particular `"not-an-email"` is rejected with the invalid-e-mail error and
`"a@b.co"` is accepted. -/
theorem contact_email_pattern :
    (∀ s : String,
        validateContactData (.obj [("name", .str "Ada"), ("email", .str s),
            ("message", .str "Bonjour")]) = .ok [] ↔
          emailRegexTest s = true) ∧
    validateContactData (.obj [("name", .str "Ada"),
        ("email", .str "not-an-email"), ("message", .str "Bonjour")]) =
      .ok ["Email invalide"] ∧
    validateContactData (.obj [("name", .str "Ada"),
        ("email", .str "a@b.co"), ("message", .str "Bonjour")]) = .ok [] := by
  refine ⟨fun s => ?_, rfl, rfl⟩
  have hval : validateContactData (.obj [("name", .str "Ada"),
      ("email", .str s), ("message", .str "Bonjour")]) =
      .ok (emailStrErrors s ++ []) := rfl
  rw [hval]
  simp only [List.append_nil, Except.ok.injEq]
  exact emailStrErrors_nil_iff s

/-- **C10.** A contact payload whose `name` is a (truthy) number makes
`validateContactData` throw a `TypeError` (`.trim()` on a number), so the
create handler produces no 400 validation response: the exception escapes the
handler. -/
theorem contact_validation_typeError_on_number :
    validateContactData (.obj [("name", .num 5), ("email", .str "a@b.co"),
        ("message", .str "Bonjour")]) = .error .typeError ∧
    contactPost [] (.obj [("name", .num 5), ("email", .str "a@b.co"),
        ("message", .str "Bonjour")]) 1 0 = .threw .typeError :=
  ⟨rfl, rfl⟩

/-- **C5.** The contact list handler computes `offset = (page − 1) × limit`
(defaults `page = 1`, `limit = 10`), returns at most `limit` rows, and its
pagination object has `currentPage = page`, `itemsPerPage = limit` and
`totalPages = ⌈total / limit⌉` where `total` is the filtered row count. -/
theorem contact_list_pagination (db : List ContactRow) (search : Option String)
    (page limit : Option Nat) (_hp : 1 ≤ page.getD 1)
    (_hl : 1 ≤ limit.getD 10) :
    (contactList db search page limit).status = 200 ∧
    (contactList db search page limit).success = true ∧
    (contactList db search page limit).offsetUsed =
      (page.getD 1 - 1) * limit.getD 10 ∧
    (contactList db search page limit).limitUsed = limit.getD 10 ∧
    (contactList db search page limit).data.length ≤ limit.getD 10 ∧
    (contactList db search page limit).pagination =
      some { total := (contactFiltered db search).length,
             totalPages := (contactFiltered db search).length ⌈/⌉ limit.getD 10,
             currentPage := page.getD 1, itemsPerPage := limit.getD 10 } := by
  refine ⟨rfl, rfl, rfl, rfl, ?_, rfl⟩
  show (((sortByCreatedDesc (contactFiltered db search)).drop
      ((page.getD 1 - 1) * limit.getD 10)).take (limit.getD 10)).length ≤
      limit.getD 10
  rw [List.length_take]
  exact Nat.min_le_left _ _

/-- Witness for C5: `page=2&limit=5` on an empty table gives offset 5, at
most 5 rows, and pagination `{total 0, totalPages 0, currentPage 2,
itemsPerPage 5}`. -/
theorem contact_list_pagination_witness :
    (contactList [] none (some 2) (some 5)).offsetUsed = 5 ∧
    (contactList [] none (some 2) (some 5)).data.length ≤ 5 ∧
    (contactList [] none (some 2) (some 5)).pagination =
      some { total := 0, totalPages := 0, currentPage := 2,
             itemsPerPage := 5 } := by
  have h := contact_list_pagination [] none (some 2) (some 5) (by decide)
    (by decide)
  exact ⟨h.2.2.1, h.2.2.2.2.1, h.2.2.2.2.2⟩

/-- A list with at least one element is not `isEmpty`. -/
theorem isEmpty_false_of_ne_nil {α : Type} {l : List α} (h : l ≠ []) :
    l.isEmpty = false := by
  cases l
  · exact absurd rfl h
  · rfl

/-- An id string `parseInt` cannot read fails the route's id guard. -/
theorem badIdParam_true {idParam : String} (h : jsParseInt idParam = none) :
    badIdParam idParam = true := by
  simp [badIdParam, h]

/-- A non-empty id string `parseInt` can read passes the route's id guard. -/
theorem badIdParam_false {idParam : String} (hne : idParam ≠ "")
    (hsome : jsParseInt idParam ≠ none) : badIdParam idParam = false := by
  have h1 : (idParam == "") = false := beq_eq_false_iff_ne.mpr hne
  have h2 : (jsParseInt idParam).isNone = false := by
    cases hjs : jsParseInt idParam
    · exact absurd hjs hsome
    · rfl
  unfold badIdParam
  rw [h1, h2]
  rfl

/-- **C4.** On `GET`, `PUT` and `DELETE /projects/:id`, an id that does not
parse as an integer is answered 400 before any database query (and the
database is untouched), while a well-formed id matching no row is answered
404 after the lookup; the two cases carry distinct statuses. -/
theorem project_id_error_separation :
    (∀ (db : List ProjectRow) (idParam : String) (body : JSValue) (now : Nat),
        jsParseInt idParam = none →
        projectGetById db idParam =
          { status := 400, success := false,
            message := some "ID doit être un nombre valide", db := db,
            queries := 0 } ∧
        projectDelete db idParam =
          { status := 400, success := false,
            message := some "ID doit être un nombre valide", db := db,
            queries := 0 } ∧
        projectPut db idParam body now =
          { status := 400, success := false,
            message := some "ID doit être un nombre valide", db := db,
            queries := 0 }) ∧
    (∀ (db : List ProjectRow) (idParam : String) (n : Int) (body : JSValue)
        (now : Nat),
        idParam ≠ "" → jsParseInt idParam ≠ none →
        pgParseInt idParam = some n →
        db.find? (fun r => r.id == n) = none →
        projectGetById db idParam =
          { status := 404, success := false,
            message := some "Projet non trouvé", db := db, queries := 1 } ∧
        projectDelete db idParam =
          { status := 404, success := false,
            message := some "Projet non trouvé", db := db, queries := 1 } ∧
        (badBody body = false →
         projectPutErrors (body.getField "title")
             (body.getField "description") (body.getField "slug") = [] →
         projectPut db idParam body now =
           { status := 404, success := false,
             message := some "Projet non trouvé", db := db, queries := 1 })) := by
  constructor
  · intro db idParam body now h
    have hbad := badIdParam_true h
    refine ⟨?_, ?_, ?_⟩
    · unfold projectGetById
      rw [hbad]
      rfl
    · unfold projectDelete
      rw [hbad]
      rfl
    · unfold projectPut
      rw [hbad]
      rfl
  · intro db idParam n body now hne hsome hpg hfind
    have hbad := badIdParam_false hne hsome
    refine ⟨?_, ?_, ?_⟩
    · unfold projectGetById
      simp only [hbad, Bool.false_eq_true, if_false, hpg, hfind]
    · unfold projectDelete
      simp only [hbad, Bool.false_eq_true, if_false, hpg, hfind]
    · intro hbb hv
      unfold projectPut
      simp only [hbad, hbb, Bool.false_eq_true, if_false, hv,
        List.isEmpty_nil, if_true, hpg, hfind]

/-- Witness for C4: id `"abc"` gives 400 with no query on all three routes;
id `"999999"` on an empty table gives 404 on all three. -/
theorem project_id_error_separation_witness :
    projectGetById [] "abc" =
      { status := 400, success := false,
        message := some "ID doit être un nombre valide", db := [],
        queries := 0 } ∧
    projectGetById [] "999999" =
      { status := 404, success := false, message := some "Projet non trouvé",
        db := [], queries := 1 } ∧
    projectPut [] "999999" (.obj []) 0 =
      { status := 404, success := false, message := some "Projet non trouvé",
        db := [], queries := 1 } := by
  have h1 := (project_id_error_separation.1 [] "abc" (.obj []) 0 rfl).1
  have h2 := project_id_error_separation.2 [] "999999" 999999 (.obj []) 0
    (by decide) (by decide) (by decide) rfl
  exact ⟨h1, h2.1, h2.2.2 rfl rfl⟩

/-- **C6.** Requests failing validation are answered 400 with the collected
errors and no storage mutation (the database state is returned unchanged and
no insert/update query is issued); a bad project id likewise short-circuits
all three id routes before any query. -/
theorem invalid_input_no_mutation :
    (∀ (db : List ContactRow) (body : JSValue) (freshId : Int) (now : Nat)
        (errs : List String),
        validateContactData body = .ok errs → errs ≠ [] →
        contactPost db body freshId now = .response
          { status := 400, success := false, errors := errs, db := db,
            queries := 0 }) ∧
    (∀ (db : List ContactRow) (idParam : String) (body : JSValue)
        (errs : List String),
        validateContactData body = .ok errs → errs ≠ [] →
        contactPut db idParam body = .response
          { status := 400, success := false, errors := errs, db := db,
            queries := 0 }) ∧
    (∀ (db : List ProjectRow) (body : JSValue) (freshId : Int) (now : Nat),
        badBody body = false →
        projectCreateErrors (body.getField "title")
            (body.getField "description") (body.getField "slug") ≠ [] →
        projectPost db body freshId now =
          { status := 400, success := false,
            message := some "Erreurs de validation",
            errors := projectCreateErrors (body.getField "title")
              (body.getField "description") (body.getField "slug"),
            db := db, queries := 0 }) ∧
    (∀ (db : List ProjectRow) (idParam : String) (body : JSValue) (now : Nat),
        badIdParam idParam = false → badBody body = false →
        projectPutErrors (body.getField "title")
            (body.getField "description") (body.getField "slug") ≠ [] →
        projectPut db idParam body now =
          { status := 400, success := false,
            message := some "Erreurs de validation",
            errors := projectPutErrors (body.getField "title")
              (body.getField "description") (body.getField "slug"),
            db := db, queries := 0 }) ∧
    (∀ (db : List ProjectRow) (idParam : String) (body : JSValue) (now : Nat),
        jsParseInt idParam = none →
        (projectGetById db idParam).queries = 0 ∧
        (projectPut db idParam body now).queries = 0 ∧
        (projectDelete db idParam).queries = 0) := by
  refine ⟨?_, ?_, ?_, ?_, ?_⟩
  · intro db body freshId now errs h hne
    unfold contactPost
    rw [h]
    simp only [isEmpty_false_of_ne_nil hne, Bool.false_eq_true, if_false]
  · intro db idParam body errs h hne
    unfold contactPut
    rw [h]
    simp only [isEmpty_false_of_ne_nil hne, Bool.false_eq_true, if_false]
  · intro db body freshId now hbb hne
    unfold projectPost
    simp only [hbb, isEmpty_false_of_ne_nil hne, Bool.false_eq_true, if_false]
  · intro db idParam body now hbad hbb hne
    unfold projectPut
    simp only [hbad, hbb, isEmpty_false_of_ne_nil hne, Bool.false_eq_true,
      if_false]
  · intro db idParam body now h
    have hbad := badIdParam_true h
    refine ⟨?_, ?_, ?_⟩
    · unfold projectGetById
      rw [hbad]
      rfl
    · unfold projectPut
      rw [hbad]
      rfl
    · unfold projectDelete
      rw [hbad]
      rfl

/-- Witness for C6: an empty contact payload is answered 400 with the three
errors and no insert; a project create missing its fields is answered 400
with no query; a bad id issues no query. -/
theorem invalid_input_no_mutation_witness :
    contactPost [] (.obj []) 1 0 = .response
      { status := 400, success := false,
        errors := ["Le nom est requis", "Email est requis",
                   "Le message est requis"],
        db := [], queries := 0 } ∧
    projectPost [] (.obj []) 1 0 =
      { status := 400, success := false,
        message := some "Erreurs de validation",
        errors := projectCreateErrors ((JSValue.obj []).getField "title")
          ((JSValue.obj []).getField "description")
          ((JSValue.obj []).getField "slug"),
        db := [], queries := 0 } ∧
    (projectGetById ([] : List ProjectRow) "abc").queries = 0 := by
  refine ⟨?_, ?_, ?_⟩
  · exact invalid_input_no_mutation.1 [] (.obj []) 1 0 _ rfl (by decide)
  · exact invalid_input_no_mutation.2.2.1 [] (.obj []) 1 0 rfl (by decide)
  · exact (invalid_input_no_mutation.2.2.2.2 [] "abc" (.obj []) 0 rfl).1

/-- A create-validation block accepts exactly the non-blank-trimming strings
that pass the extra check. -/
theorem createFieldErrors_eq_nil {rm tm em : String}
    {ex : String → List String} {v : JSValue}
    (h : createFieldErrors rm tm em ex v = []) :
    ∃ s, v = .str s ∧ jsTrim s ≠ "" ∧ ex s = [] := by
  cases v with
  | str s =>
    by_cases hs : s = ""
    · subst hs
      simp [createFieldErrors, JSValue.truthy] at h
    · by_cases ht : jsTrim s = ""
      · simp [createFieldErrors, JSValue.truthy, hs, ht] at h
      · refine ⟨s, rfl, ht, ?_⟩
        simpa [createFieldErrors, JSValue.truthy, hs, ht] using h
  | undefined => exact absurd h (by simp [createFieldErrors, JSValue.truthy])
  | null => exact absurd h (by simp [createFieldErrors, JSValue.truthy])
  | bool b =>
    cases b <;> exact absurd h (by simp [createFieldErrors, JSValue.truthy])
  | num n =>
    by_cases hn : n = 0
    · subst hn
      exact absurd h (by simp [createFieldErrors, JSValue.truthy])
    · exact absurd h (by simp [createFieldErrors, JSValue.truthy, hn])
  | arr xs => exact absurd h (by simp [createFieldErrors, JSValue.truthy])
  | obj fs => exact absurd h (by simp [createFieldErrors, JSValue.truthy])

/-- A PUT-validation block accepts exactly the absent fields and the
non-blank-trimming strings passing the extra check. -/
theorem putFieldErrors_eq_nil {tm em : String} {ex : String → List String}
    {v : JSValue} (h : putFieldErrors tm em ex v = []) :
    v = .undefined ∨ ∃ s, v = .str s ∧ jsTrim s ≠ "" ∧ ex s = [] := by
  cases v with
  | undefined => exact .inl rfl
  | str s =>
    by_cases ht : jsTrim s = ""
    · simp [putFieldErrors, ht] at h
    · refine .inr ⟨s, rfl, ht, ?_⟩
      simpa [putFieldErrors, ht] using h
  | null => exact absurd h (by simp [putFieldErrors])
  | bool b => exact absurd h (by simp [putFieldErrors])
  | num n => exact absurd h (by simp [putFieldErrors])
  | arr xs => exact absurd h (by simp [putFieldErrors])
  | obj fs => exact absurd h (by simp [putFieldErrors])

/-- On a field value accepted by PUT validation, `v ? v.trim() : null` does
not throw and computes `putParamOfField`. -/
theorem trimOrNull_validated {tm em : String} {ex : String → List String}
    {v : JSValue} (h : putFieldErrors tm em ex v = []) :
    trimOrNull v = .ok (putParamOfField v) := by
  rcases putFieldErrors_eq_nil h with rfl | ⟨s, rfl, hns, _⟩
  · rfl
  · have hs : s ≠ "" := fun he => hns (by rw [he]; rfl)
    have ht : (JSValue.str s).truthy = true := by
      simp [JSValue.truthy, hs]
    simp only [trimOrNull, putParamOfField, ht, if_true]
    rw [if_neg hs]

/-- `beq` is reflexive on string values. -/
theorem beq_str_self (x : String) : (JSValue.str x).beq (.str x) = true := by
  simp [JSValue.beq]

/-- Under the guards of a successful `PUT /projects/:id` path (good id, JSON
object body, validation passed, existing row), the handler's result is the
`COALESCE` update with the seven computed parameters: the conflict check and
then either 409 or the 200 response with the updated row. -/
theorem projectPut_update_eq (db : List ProjectRow) (idParam : String)
    (body : JSValue) (now : Nat) (n : Int) (old : ProjectRow)
    (hbad : badIdParam idParam = false) (hbb : badBody body = false)
    (hv : projectPutErrors (body.getField "title")
      (body.getField "description") (body.getField "slug") = [])
    (hpg : pgParseInt idParam = some n)
    (hfind : db.find? (fun r => r.id == n) = some old) :
    projectPut db idParam body now =
      (let vTitle := putParamOfField (body.getField "title")
       let vDesc := putParamOfField (body.getField "description")
       let vSlug := putParamOfField (body.getField "slug")
       let vImage := if (body.getField "image").truthy
                     then body.getField "image" else .null
       let vTech := if (body.getField "technologies").isArray
                    then body.getField "technologies" else .null
       let vFeatured := if (body.getField "featured").isBool
                        then body.getField "featured" else .null
       let vStats := if (body.getField "stats").truthy
                     then body.getField "stats" else .null
       let newRow := applyProjectUpdate old vTitle vDesc vImage vTech
                       vFeatured vStats vSlug now
       if db.any (fun r => !(r.id == n) && r.slug.beq newRow.slug) then
         { status := 409, success := false,
           message := some "Un projet avec ce slug existe déjà",
           db := db, queries := 2 }
       else
         { status := 200, success := true, data := some newRow,
           db := db.map (fun r => if r.id == n then
             applyProjectUpdate r vTitle vDesc vImage vTech vFeatured vStats
               vSlug now else r),
           queries := 2 }) := by
  have hv3 : projectPutErrors (body.getField "title")
      (body.getField "description") (body.getField "slug") = [] := hv
  unfold projectPutErrors at hv3
  rw [List.append_eq_nil, List.append_eq_nil] at hv3
  obtain ⟨⟨hvt, hvd⟩, hvs⟩ := hv3
  unfold projectPut
  simp only [hbad, hbb, Bool.false_eq_true, if_false, hv, List.isEmpty_nil,
    if_true, hpg, hfind, trimOrNull_validated hvt, trimOrNull_validated hvd,
    trimOrNull_validated hvs]

/-- `COALESCE` of the computed string-field parameter equals the
`putCoalesced` characterisation. -/
theorem coalesce_putParam (v old : JSValue) :
    coalesceJs (putParamOfField v) old = putCoalesced v old := by
  cases v with
  | str s =>
    by_cases hs : s = "" <;>
      simp [putParamOfField, putCoalesced, coalesceJs, hs]
  | undefined => rfl
  | null => rfl
  | bool b => rfl
  | num n => rfl
  | arr xs => rfl
  | obj fs => rfl

/-- Under the guards of a successful `POST /projects` path (JSON object body,
validation passed, string fields), the handler's result is the insert of the
coerced values: the unique-slug check and then either 409 or the 201 response
with the created row. -/
theorem projectPost_insert_eq (db : List ProjectRow) (body : JSValue)
    (freshId : Int) (now : Nat) (t d sg : String)
    (hbb : badBody body = false)
    (ht : body.getField "title" = .str t)
    (hd : body.getField "description" = .str d)
    (hs : body.getField "slug" = .str sg)
    (hv : projectCreateErrors (body.getField "title")
      (body.getField "description") (body.getField "slug") = []) :
    projectPost db body freshId now =
      (let vImage := if (body.getField "image").truthy
                     then body.getField "image" else .null
       let vTech := if (body.getField "technologies").isArray
                    then body.getField "technologies" else .null
       let vFeatured := if (body.getField "featured").isBool
                        then body.getField "featured" else .bool false
       let vStats := if (body.getField "stats").truthy
                     then body.getField "stats" else .null
       let vSlug : JSValue := .str (jsTrim sg)
       if db.any (fun r => r.slug.beq vSlug) then
         { status := 409, success := false,
           message := some "Un projet avec ce slug existe déjà",
           db := db, queries := 1 }
       else
         let row : ProjectRow :=
           { id := freshId, title := .str (jsTrim t),
             description := .str (jsTrim d), image := vImage,
             technologies := vTech, featured := vFeatured, stats := vStats,
             slug := vSlug, createdAt := now, updatedAt := now }
         { status := 201, success := true, data := some row,
           db := db ++ [row], queries := 1 }) := by
  have hv' : projectCreateErrors (.str t) (.str d) (.str sg) = [] := by
    rw [← ht, ← hd, ← hs]
    exact hv
  unfold projectPost
  simp only [hbb, Bool.false_eq_true, if_false, ht, hd, hs, hv',
    List.isEmpty_nil, if_true]

/-- **C2.** A project create or update whose slug duplicates the slug of
another stored project is answered 409 (`success:false`, the conflict
message) and leaves the stored table unchanged — no overwrite, no generic
500. -/
theorem project_slug_conflict :
    (∀ (db : List ProjectRow) (body : JSValue) (freshId : Int) (now : Nat)
        (s : String) (r : ProjectRow),
        badBody body = false →
        projectCreateErrors (body.getField "title")
          (body.getField "description") (body.getField "slug") = [] →
        body.getField "slug" = .str s →
        r ∈ db → r.slug = .str (jsTrim s) →
        projectPost db body freshId now =
          { status := 409, success := false,
            message := some "Un projet avec ce slug existe déjà",
            db := db, queries := 1 }) ∧
    (∀ (db : List ProjectRow) (idParam : String) (body : JSValue) (now : Nat)
        (n : Int) (old : ProjectRow) (s : String) (other : ProjectRow),
        badIdParam idParam = false → badBody body = false →
        projectPutErrors (body.getField "title")
          (body.getField "description") (body.getField "slug") = [] →
        pgParseInt idParam = some n →
        db.find? (fun r => r.id == n) = some old →
        body.getField "slug" = .str s →
        other ∈ db → (other.id == n) = false →
        other.slug = .str (jsTrim s) →
        projectPut db idParam body now =
          { status := 409, success := false,
            message := some "Un projet avec ce slug existe déjà",
            db := db, queries := 2 }) := by
  constructor
  · intro db body freshId now s r hbb hv hslug hr hrslug
    have hv3 := hv
    unfold projectCreateErrors at hv3
    rw [List.append_eq_nil, List.append_eq_nil] at hv3
    obtain ⟨⟨hvt, hvd⟩, hvs⟩ := hv3
    obtain ⟨t, ht, _, _⟩ := createFieldErrors_eq_nil hvt
    obtain ⟨d, hd, _, _⟩ := createFieldErrors_eq_nil hvd
    rw [projectPost_insert_eq db body freshId now t d s hbb ht hd hslug hv]
    have hany : db.any (fun r => r.slug.beq (.str (jsTrim s))) = true :=
      List.any_eq_true.mpr ⟨r, hr, by rw [hrslug]; exact beq_str_self _⟩
    simp only [hany, if_true]
  · intro db idParam body now n old s other hbad hbb hv hpg hfind hslug hmem
      hnid hoslug
    have hv3 := hv
    unfold projectPutErrors at hv3
    rw [List.append_eq_nil, List.append_eq_nil] at hv3
    obtain ⟨⟨hvt, hvd⟩, hvs⟩ := hv3
    have hstrim : jsTrim s ≠ "" := by
      rcases putFieldErrors_eq_nil hvs with h0 | ⟨s', heq, htrim, _⟩
      · rw [hslug] at h0
        exact absurd h0 (by simp)
      · rw [hslug] at heq
        injection heq with heq'
        rw [heq']
        exact htrim
    have hs0 : s ≠ "" := fun he => hstrim (by rw [he]; rfl)
    rw [projectPut_update_eq db idParam body now n old hbad hbb hv hpg hfind]
    have hcand : putCoalesced (body.getField "slug") old.slug =
        .str (jsTrim s) := by
      rw [hslug]
      simp [putCoalesced, hs0]
    have hany : (db.any fun r => !(r.id == n) &&
        r.slug.beq (putCoalesced (body.getField "slug") old.slug)) = true :=
      List.any_eq_true.mpr ⟨other, hmem, by
        rw [hcand, hnid, hoslug]
        simp [beq_str_self]⟩
    simp only [applyProjectUpdate, coalesce_putParam, hany, if_true]

/-- Witness for C2: creating `b-slug` twice conflicts; updating project 1's
slug to `b-slug` while project 2 holds it conflicts; both leave the table
unchanged. -/
theorem project_slug_conflict_witness :
    projectPost
      [{ id := 2, title := .str "B", description := .str "B",
         image := .null, technologies := .null, featured := .bool false,
         stats := .null, slug := .str "b-slug", createdAt := 0,
         updatedAt := 0 }]
      (.obj [("title", .str "T"), ("description", .str "D"),
             ("slug", .str "b-slug")]) 5 7 =
      { status := 409, success := false,
        message := some "Un projet avec ce slug existe déjà",
        db := [{ id := 2, title := .str "B", description := .str "B",
                 image := .null, technologies := .null,
                 featured := .bool false, stats := .null,
                 slug := .str "b-slug", createdAt := 0, updatedAt := 0 }],
        queries := 1 } ∧
    projectPut
      [{ id := 1, title := .str "A", description := .str "A", image := .null,
         technologies := .null, featured := .bool false, stats := .null,
         slug := .str "a-slug", createdAt := 0, updatedAt := 0 },
       { id := 2, title := .str "B", description := .str "B", image := .null,
         technologies := .null, featured := .bool false, stats := .null,
         slug := .str "b-slug", createdAt := 0, updatedAt := 0 }]
      "1" (.obj [("slug", .str "b-slug")]) 9 =
      { status := 409, success := false,
        message := some "Un projet avec ce slug existe déjà",
        db := [{ id := 1, title := .str "A", description := .str "A",
                 image := .null, technologies := .null,
                 featured := .bool false, stats := .null,
                 slug := .str "a-slug", createdAt := 0, updatedAt := 0 },
               { id := 2, title := .str "B", description := .str "B",
                 image := .null, technologies := .null,
                 featured := .bool false, stats := .null,
                 slug := .str "b-slug", createdAt := 0, updatedAt := 0 }],
        queries := 2 } := by
  constructor
  · exact project_slug_conflict.1
      [{ id := 2, title := .str "B", description := .str "B", image := .null,
         technologies := .null, featured := .bool false, stats := .null,
         slug := .str "b-slug", createdAt := 0, updatedAt := 0 }]
      (.obj [("title", .str "T"), ("description", .str "D"),
             ("slug", .str "b-slug")]) 5 7 "b-slug"
      { id := 2, title := .str "B", description := .str "B", image := .null,
        technologies := .null, featured := .bool false, stats := .null,
        slug := .str "b-slug", createdAt := 0, updatedAt := 0 }
      rfl rfl rfl (by simp) rfl
  · exact project_slug_conflict.2
      [{ id := 1, title := .str "A", description := .str "A", image := .null,
         technologies := .null, featured := .bool false, stats := .null,
         slug := .str "a-slug", createdAt := 0, updatedAt := 0 },
       { id := 2, title := .str "B", description := .str "B", image := .null,
         technologies := .null, featured := .bool false, stats := .null,
         slug := .str "b-slug", createdAt := 0, updatedAt := 0 }]
      "1" (.obj [("slug", .str "b-slug")]) 9 1
      { id := 1, title := .str "A", description := .str "A", image := .null,
        technologies := .null, featured := .bool false, stats := .null,
        slug := .str "a-slug", createdAt := 0, updatedAt := 0 }
      "b-slug"
      { id := 2, title := .str "B", description := .str "B", image := .null,
        technologies := .null, featured := .bool false, stats := .null,
        slug := .str "b-slug", createdAt := 0, updatedAt := 0 }
      rfl rfl rfl (by decide) rfl rfl (by simp) (by decide) rfl

/-- When the stored rows matching the id are all `old`, mapping the update
over matching rows is mapping the constant `putUpdatedRow body now old`. -/
theorem map_update_eq_const (db : List ProjectRow) (body : JSValue)
    (now : Nat) (n : Int) (old : ProjectRow)
    (huniq : ∀ r ∈ db, (r.id == n) = true → r = old) :
    List.map (fun r => if (r.id == n) = true
        then putUpdatedRow body now r else r) db =
    List.map (fun r => if (r.id == n) = true
        then putUpdatedRow body now old else r) db :=
  List.map_congr_left (fun r hr => by
    by_cases hid : (r.id == n) = true
    · rw [huniq r hr hid]
    · simp [hid])

/-- **C1.** A `PUT /projects/:id` request on an existing project with a valid
body and no slug conflict updates only the supplied fields: every field
absent from the body keeps its stored value, `id` and `created_at` are
untouched, `updated_at` is set to the current time, the row is updated in
place and returned with a 200 success response. -/
theorem projectPut_partial_update_frame (db : List ProjectRow)
    (idParam : String) (body : JSValue) (now : Nat) (n : Int)
    (old : ProjectRow)
    (hbad : badIdParam idParam = false) (hbb : badBody body = false)
    (hv : projectPutErrors (body.getField "title")
      (body.getField "description") (body.getField "slug") = [])
    (hpg : pgParseInt idParam = some n)
    (hfind : db.find? (fun r => r.id == n) = some old)
    (huniq : ∀ r ∈ db, (r.id == n) = true → r = old)
    (hnoconf : (db.any fun r => !(r.id == n) &&
        r.slug.beq (putCoalesced (body.getField "slug") old.slug)) = false) :
    ∃ newRow,
      projectPut db idParam body now =
        { status := 200, success := true, data := some newRow,
          db := db.map (fun r => if r.id == n then newRow else r),
          queries := 2 } ∧
      newRow.updatedAt = now ∧ newRow.id = old.id ∧
      newRow.createdAt = old.createdAt ∧
      (body.getField "title" = .undefined → newRow.title = old.title) ∧
      (body.getField "description" = .undefined →
        newRow.description = old.description) ∧
      (body.getField "image" = .undefined → newRow.image = old.image) ∧
      (body.getField "technologies" = .undefined →
        newRow.technologies = old.technologies) ∧
      (body.getField "featured" = .undefined → newRow.featured = old.featured) ∧
      (body.getField "stats" = .undefined → newRow.stats = old.stats) ∧
      (body.getField "slug" = .undefined → newRow.slug = old.slug) := by
  rw [projectPut_update_eq db idParam body now n old hbad hbb hv hpg hfind]
  simp only [applyProjectUpdate, coalesce_putParam, hnoconf,
    Bool.false_eq_true, if_false]
  refine ⟨putUpdatedRow body now old, ?_, rfl, rfl, rfl, ?_, ?_, ?_, ?_, ?_,
    ?_, ?_⟩
  · exact congrArg
      (fun l => ProjOut.mk 200 true none []
        (some (putUpdatedRow body now old)) none l 2)
      (map_update_eq_const db body now n old huniq)
  · intro h
    simp [putUpdatedRow, h, putCoalesced]
  · intro h
    simp [putUpdatedRow, h, putCoalesced]
  · intro h
    simp [putUpdatedRow, h, JSValue.truthy, coalesceJs]
  · intro h
    simp [putUpdatedRow, h, JSValue.isArray, coalesceJs]
  · intro h
    simp [putUpdatedRow, h, JSValue.isBool, coalesceJs]
  · intro h
    simp [putUpdatedRow, h, JSValue.truthy, coalesceJs]
  · intro h
    simp [putUpdatedRow, h, putCoalesced]

/-- Witness for C1: updating project 1 with only a new title keeps
description, slug, image, technologies, featured and stats, refreshes
`updated_at` to 9, and returns the updated row with 200. -/
theorem projectPut_partial_update_frame_witness :
    ∃ newRow,
      projectPut
        [{ id := 1, title := .str "A", description := .str "B",
           image := .str "img", technologies := .arr [.str "x"],
           featured := .bool true, stats := .null, slug := .str "a-slug",
           createdAt := 1, updatedAt := 1 }]
        "1" (.obj [("title", .str "New")]) 9 =
        { status := 200, success := true, data := some newRow,
          db := List.map (fun r => if r.id == 1 then newRow else r)
            [{ id := 1, title := .str "A", description := .str "B",
               image := .str "img", technologies := .arr [.str "x"],
               featured := .bool true, stats := .null, slug := .str "a-slug",
               createdAt := 1, updatedAt := 1 }],
          queries := 2 } ∧
      newRow.updatedAt = 9 ∧
      newRow.description = .str "B" ∧ newRow.slug = .str "a-slug" ∧
      newRow.image = .str "img" := by
  obtain ⟨newRow, h1, h2, _, _, _, hdesc, himg, _, _, _, hslug⟩ :=
    projectPut_partial_update_frame
      [{ id := 1, title := .str "A", description := .str "B",
         image := .str "img", technologies := .arr [.str "x"],
         featured := .bool true, stats := .null, slug := .str "a-slug",
         createdAt := 1, updatedAt := 1 }]
      "1" (.obj [("title", .str "New")]) 9 1
      { id := 1, title := .str "A", description := .str "B",
        image := .str "img", technologies := .arr [.str "x"],
        featured := .bool true, stats := .null, slug := .str "a-slug",
        createdAt := 1, updatedAt := 1 }
      rfl rfl rfl (by decide) rfl
      (by intro r hr hid
          simp at hr
          exact hr)
      (by decide)
  exact ⟨newRow, h1, h2, hdesc rfl, hslug rfl, himg rfl⟩

/-- The `image`/`stats` update parameter (`v || null`): if the coalesced
column is `NULL` then the stored column was already `NULL` — a truthy value
is never `null` and a falsy one coalesces to the stored value. -/
theorem coalesce_truthyOrNull_isNull {v old : JSValue}
    (h : (coalesceJs (if v.truthy then v else .null) old).isNull = true) :
    old.isNull = true := by
  by_cases ht : v.truthy = true
  · rw [if_pos ht] at h
    cases v <;> simp_all [coalesceJs, JSValue.truthy, JSValue.isNull]
  · rw [if_neg ht] at h
    simpa [coalesceJs] using h

/-- The `technologies` update parameter (`Array.isArray(v) ? v : null`): if
the coalesced column is `NULL` then the stored column was already `NULL`. -/
theorem coalesce_arrayOrNull_isNull {v old : JSValue}
    (h : (coalesceJs (if v.isArray then v else .null) old).isNull = true) :
    old.isNull = true := by
  by_cases ha : v.isArray = true
  · rw [if_pos ha] at h
    cases v <;> simp_all [coalesceJs, JSValue.isArray, JSValue.isNull]
  · rw [if_neg ha] at h
    simpa [coalesceJs] using h

/-- **C9.** On a successful `PUT /projects/:id`, supplying `image`, `stats`
or `technologies` as `null` (or `image` as the empty string, or
`technologies` as any non-array) leaves the stored field unchanged, and the
`COALESCE` update can never set any of these three nullable columns back to
`NULL` from a non-`NULL` stored value. -/
theorem projectPut_cannot_clear_nullable (db : List ProjectRow)
    (idParam : String) (body : JSValue) (now : Nat) (n : Int)
    (old : ProjectRow)
    (hbad : badIdParam idParam = false) (hbb : badBody body = false)
    (hv : projectPutErrors (body.getField "title")
      (body.getField "description") (body.getField "slug") = [])
    (hpg : pgParseInt idParam = some n)
    (hfind : db.find? (fun r => r.id == n) = some old)
    (huniq : ∀ r ∈ db, (r.id == n) = true → r = old)
    (hnoconf : (db.any fun r => !(r.id == n) &&
        r.slug.beq (putCoalesced (body.getField "slug") old.slug)) = false) :
    ∃ newRow,
      projectPut db idParam body now =
        { status := 200, success := true, data := some newRow,
          db := db.map (fun r => if r.id == n then newRow else r),
          queries := 2 } ∧
      ((body.getField "image" = .null ∨ body.getField "image" = .str "") →
        newRow.image = old.image) ∧
      (body.getField "stats" = .null → newRow.stats = old.stats) ∧
      ((body.getField "technologies").isArray = false →
        newRow.technologies = old.technologies) ∧
      (newRow.image.isNull = true → old.image.isNull = true) ∧
      (newRow.stats.isNull = true → old.stats.isNull = true) ∧
      (newRow.technologies.isNull = true → old.technologies.isNull = true) := by
  rw [projectPut_update_eq db idParam body now n old hbad hbb hv hpg hfind]
  simp only [applyProjectUpdate, coalesce_putParam, hnoconf,
    Bool.false_eq_true, if_false]
  refine ⟨putUpdatedRow body now old, ?_, ?_, ?_, ?_, ?_, ?_, ?_⟩
  · exact congrArg
      (fun l => ProjOut.mk 200 true none []
        (some (putUpdatedRow body now old)) none l 2)
      (map_update_eq_const db body now n old huniq)
  · intro h
    rcases h with h | h <;> simp [putUpdatedRow, h, JSValue.truthy, coalesceJs]
  · intro h
    simp [putUpdatedRow, h, JSValue.truthy, coalesceJs]
  · intro h
    simp [putUpdatedRow, h, coalesceJs]
  · intro h
    simp only [putUpdatedRow] at h
    exact coalesce_truthyOrNull_isNull h
  · intro h
    simp only [putUpdatedRow] at h
    exact coalesce_truthyOrNull_isNull h
  · intro h
    simp only [putUpdatedRow] at h
    exact coalesce_arrayOrNull_isNull h

/-- Witness for C9: a PUT supplying `image: null`, `stats: null` and a
non-array `technologies` on a stored row keeps all three stored values. -/
theorem projectPut_cannot_clear_nullable_witness :
    ∃ newRow,
      projectPut
        [{ id := 1, title := .str "A", description := .str "B",
           image := .str "img", technologies := .arr [.str "x"],
           featured := .bool true, stats := .null, slug := .str "a-slug",
           createdAt := 1, updatedAt := 1 }]
        "1" (.obj [("image", .null), ("stats", .null),
                   ("technologies", .num 3)]) 9 =
        { status := 200, success := true, data := some newRow,
          db := List.map (fun r => if r.id == 1 then newRow else r)
            [{ id := 1, title := .str "A", description := .str "B",
               image := .str "img", technologies := .arr [.str "x"],
               featured := .bool true, stats := .null, slug := .str "a-slug",
               createdAt := 1, updatedAt := 1 }],
          queries := 2 } ∧
      newRow.image = .str "img" ∧
      newRow.technologies = .arr [.str "x"] := by
  obtain ⟨newRow, h1, himg, _, htech, _, _, _⟩ :=
    projectPut_cannot_clear_nullable
      [{ id := 1, title := .str "A", description := .str "B",
         image := .str "img", technologies := .arr [.str "x"],
         featured := .bool true, stats := .null, slug := .str "a-slug",
         createdAt := 1, updatedAt := 1 }]
      "1" (.obj [("image", .null), ("stats", .null),
                 ("technologies", .num 3)]) 9 1
      { id := 1, title := .str "A", description := .str "B",
        image := .str "img", technologies := .arr [.str "x"],
        featured := .bool true, stats := .null, slug := .str "a-slug",
        createdAt := 1, updatedAt := 1 }
      rfl rfl rfl (by decide) rfl
      (by intro r hr hid
          simp at hr
          exact hr)
      (by decide)
  exact ⟨newRow, h1, himg (.inl rfl), htech rfl⟩

/-- A JSON object value is truthy. -/
theorem isObj_truthy {v : JSValue} (h : v.isObj = true) : v.truthy = true := by
  cases v <;> simp_all [JSValue.isObj, JSValue.truthy]

/-- **C7 counterexample.** The payload
`{title: "t", description: "d", slug: "t-1", stats: 2}` passes create
validation, is inserted with 201, and the inserted record's `stats` value is
the number `2` — neither an object nor `null`, refuting "stats coerced to an
object or null" for every valid payload. -/
theorem projectPost_stats_counterexample :
    projectCreateErrors
        ((JSValue.obj [("title", .str "t"), ("description", .str "d"),
            ("slug", .str "t-1"), ("stats", .num 2)]).getField "title")
        ((JSValue.obj [("title", .str "t"), ("description", .str "d"),
            ("slug", .str "t-1"), ("stats", .num 2)]).getField "description")
        ((JSValue.obj [("title", .str "t"), ("description", .str "d"),
            ("slug", .str "t-1"), ("stats", .num 2)]).getField "slug") = [] ∧
    (projectPost [] (.obj [("title", .str "t"), ("description", .str "d"),
        ("slug", .str "t-1"), ("stats", .num 2)]) 1 0).status = 201 ∧
    (projectPost [] (.obj [("title", .str "t"), ("description", .str "d"),
        ("slug", .str "t-1"), ("stats", .num 2)]) 1 0).data.map
      (fun r => r.stats) = some (.num 2) ∧
    (JSValue.num 2).isObj = false ∧ (JSValue.num 2).isNull = false :=
  ⟨rfl, rfl, rfl, rfl, rfl⟩

/-- **C7 (amended).** For every valid project-create payload that does not
hit the slug-unique conflict, the inserted record has `title`, `description`
and `slug` trimmed, `technologies` coerced to a list or null, `featured`
coerced to a boolean defaulting to `false`, `stats` set to the supplied value
when truthy and to null otherwise (hence an object or null whenever the
supplied stats is an object, absent, or otherwise falsy), and `image`
likewise (a string or null whenever the supplied image is a string, absent,
or otherwise falsy). -/
theorem projectPost_coercions (db : List ProjectRow) (body : JSValue)
    (freshId : Int) (now : Nat) (t d sg : String)
    (hbb : badBody body = false)
    (ht : body.getField "title" = .str t)
    (hd : body.getField "description" = .str d)
    (hs : body.getField "slug" = .str sg)
    (hv : projectCreateErrors (body.getField "title")
      (body.getField "description") (body.getField "slug") = [])
    (hnc : (db.any fun r => r.slug.beq (.str (jsTrim sg))) = false) :
    ∃ row,
      projectPost db body freshId now =
        { status := 201, success := true, data := some row,
          db := db ++ [row], queries := 1 } ∧
      row.title = .str (jsTrim t) ∧
      row.description = .str (jsTrim d) ∧
      row.slug = .str (jsTrim sg) ∧
      (row.technologies.isArray = true ∨ row.technologies = .null) ∧
      row.featured.isBool = true ∧
      ((body.getField "featured").isBool = false → row.featured = .bool false) ∧
      row.stats = (if (body.getField "stats").truthy
                   then body.getField "stats" else .null) ∧
      ((body.getField "stats").isObj = true ∨
          (body.getField "stats").truthy = false →
        row.stats.isObj = true ∨ row.stats = .null) ∧
      row.image = (if (body.getField "image").truthy
                   then body.getField "image" else .null) ∧
      ((body.getField "image").isString = true ∨
          (body.getField "image").truthy = false →
        row.image.isString = true ∨ row.image = .null) := by
  rw [projectPost_insert_eq db body freshId now t d sg hbb ht hd hs hv]
  simp only [hnc, Bool.false_eq_true, if_false]
  refine ⟨_, rfl, rfl, rfl, rfl, ?_, ?_, ?_, rfl, ?_, rfl, ?_⟩
  · by_cases h : (body.getField "technologies").isArray = true
    · exact .inl (by simp [h])
    · exact .inr (by simp [h])
  · by_cases h : (body.getField "featured").isBool = true
    · rw [if_pos h]
      exact h
    · rw [Bool.not_eq_true] at h
      rw [h]
      rfl
  · intro h
    simp [h]
  · intro h
    rcases h with hobj | hfalsy
    · exact .inl (by simp [isObj_truthy hobj, hobj])
    · exact .inr (by simp [hfalsy])
  · intro h
    by_cases htr : (body.getField "image").truthy = true
    · rcases h with hstr | hfalsy
      · exact .inl (by simp [htr, hstr])
      · exact absurd htr (by simp [hfalsy])
    · exact .inr (by simp [htr])

/-- Witness for C7 (amended): a payload with a title to trim, a string
technologies value (coerced to null), no featured (defaults to false), an
object stats and a string image inserts the coerced row. -/
theorem projectPost_coercions_witness :
    ∃ row,
      projectPost [] (.obj [("title", .str " T "), ("description", .str "D"),
        ("slug", .str "t-1"), ("technologies", .str "nope"),
        ("stats", .obj [("views", .num 3)]), ("image", .str "i.png")]) 1 7 =
        { status := 201, success := true, data := some row,
          db := [] ++ [row], queries := 1 } ∧
      row.title = .str "T" ∧
      (row.technologies.isArray = true ∨ row.technologies = .null) ∧
      row.featured.isBool = true ∧
      (row.stats.isObj = true ∨ row.stats = .null) ∧
      (row.image.isString = true ∨ row.image = .null) := by
  obtain ⟨row, h1, ht, _, _, htech, hfb, _, _, hstats, _, himg⟩ :=
    projectPost_coercions [] (.obj [("title", .str " T "),
      ("description", .str "D"), ("slug", .str "t-1"),
      ("technologies", .str "nope"), ("stats", .obj [("views", .num 3)]),
      ("image", .str "i.png")]) 1 7 " T " "D" "t-1"
      rfl rfl rfl rfl rfl rfl
  exact ⟨row, h1, ht, htech, hfb, hstats (.inl rfl), himg (.inl rfl)⟩

end Oumarbackend
